import Mathlib

/-!
Shallow embedding of the hsaf-snow-geocoder pipeline
(src/geocoder/geocoder.py, CLI in src/geocoder_app.py) and proofs about it.

Modelling conventions:
* Python strings are Lean strings; `str.upper` is modelled on the ASCII
  range (product codes and registry keys are ASCII).
* The six geotransform coefficients are Python float literals that the
  program only stores, looks up and compares — it never computes with
  them — so they are carried as exact rationals.
* The file system is an association list from paths to file contents;
  GDAL raster creation, geotransform/projection assignment, band write,
  warp and translate are recorded as operations on that list.  The fresh
  paths produced by `tempfile.mktemp` / `tempfile.NamedTemporaryFile`
  are passed in as explicit parameters (`tempTif`, `vrtPath`).
* Python dictionary lookups `d[k]` that can raise `KeyError`, attribute
  access that can raise `AttributeError`, and the explicit `ValueError`
  of `read_data` are modelled with `Except GeoError`.
-/

namespace HsafGeocoder

/-- ASCII upper-casing of one character, as Python `str.upper` acts on
the ASCII range (code point minus 32 for a lower-case letter). -/
def upperChar (c : Char) : Char :=
  if 97 ≤ c.toNat ∧ c.toNat ≤ 122 then Char.ofNat (c.toNat - 32) else c

/-- Python `s.upper()` restricted to ASCII: upper-case every character. -/
def pyUpper (s : String) : String := ⟨s.data.map upperChar⟩

/-- `Geocoder.PROJECTION_DICT`: WKT definition strings for the four
projection classes. -/
def PROJECTION_DICT : String → Option String
  | "GEOS" => some "PROJCS[\"unknown\",GEOGCS[\"GCS_unknown\",DATUM[\"D_unknown\",SPHEROID[\"unknown\",6378169,295.488065897014]],PRIMEM[\"Greenwich\",0],UNIT[\"Degree\",0.0174532925199433]],PROJECTION[\"Geostationary_Satellite\"],PARAMETER[\"central_meridian\",0],PARAMETER[\"satellite_height\",35785831],PARAMETER[\"false_easting\",0],PARAMETER[\"false_northing\",0],UNIT[\"metre\",1,AUTHORITY[\"EPSG\",\"9001\"]],AXIS[\"Easting\",EAST],AXIS[\"Northing\",NORTH]]"
  | "WGS_84" => some "GEOGCS[\"WGS 84\",DATUM[\"WGS_1984\",SPHEROID[\"WGS 84\",6378137,298.257223563,AUTHORITY[\"EPSG\",\"7030\"]],AUTHORITY[\"EPSG\",\"6326\"]],PRIMEM[\"Greenwich\",0],UNIT[\"degree\",0.0174532925199433,AUTHORITY[\"EPSG\",\"9122\"]],AXIS[\"Latitude\",NORTH],AXIS[\"Longitude\",EAST],AUTHORITY[\"EPSG\",\"4326\"]]"
  | "GEOS_MTG" => some "PROJCS[\"unknown\",GEOGCS[\"unknown\",DATUM[\"D_Unknown_based_on_WGS_84_ellipsoid\",SPHEROID[\"WGS 84\",6378137,298.257223563,AUTHORITY[\"EPSG\",\"7030\"]]],PRIMEM[\"Greenwich\",0],UNIT[\"Degree\",0.0174532925199433]],PROJECTION[\"Geostationary_Satellite\"],PARAMETER[\"central_meridian\",0],PARAMETER[\"satellite_height\",35786400],PARAMETER[\"false_easting\",0],PARAMETER[\"false_northing\",0],UNIT[\"metre\",1,AUTHORITY[\"EPSG\",\"9001\"]],AXIS[\"Easting\",EAST],AXIS[\"Northing\",NORTH]]"
  | "EASE" => some "PROJCS[\"WGS 84 / NSIDC EASE-Grid 2.0 North\",GEOGCS[\"WGS 84\",DATUM[\"WGS_1984\",SPHEROID[\"WGS 84\",6378137,298.257223563,AUTHORITY[\"EPSG\",\"7030\"]],AUTHORITY[\"EPSG\",\"6326\"]],PRIMEM[\"Greenwich\",0,AUTHORITY[\"EPSG\",\"8901\"]],UNIT[\"degree\",0.0174532925199433,AUTHORITY[\"EPSG\",\"9122\"]],AUTHORITY[\"EPSG\",\"4326\"]],PROJECTION[\"Lambert_Azimuthal_Equal_Area\"],PARAMETER[\"latitude_of_center\",90],PARAMETER[\"longitude_of_center\",0],PARAMETER[\"false_easting\",0],PARAMETER[\"false_northing\",0],UNIT[\"metre\",1,AUTHORITY[\"EPSG\",\"9001\"]],AXIS[\"Easting\",SOUTH],AXIS[\"Northing\",SOUTH],AUTHORITY[\"EPSG\",\"6931\"]]"
  | _ => none

/-- `Geocoder.PROJECTION_MAP`: product code to projection-dictionary key. -/
def PROJECTION_MAP : String → Option String
  | "H10" => some "GEOS"
  | "H34" => some "GEOS"
  | "H43" => some "GEOS_MTG"
  | "H65" => some "EASE"
  | _ => none

/-- A geotransform: six affine coefficients. -/
abbrev GeoTransform := ℚ × ℚ × ℚ × ℚ × ℚ × ℚ

/-- `Geocoder.TRANSFORM_DICT`: product code to geotransform. -/
def TRANSFORM_DICT : String → Option GeoTransform
  | "H10" => some (3770007.5181810227, -3000.4031658172607, 0.0, 2635854.6990046464, 0.0, 3000.4031658172607)
  | "H11" => some (-25.125, 0.25, 0.0, 75.125, 0.0, -0.25)
  | "H34" => some (5567248.074173927, -3000.4031658172607, 0.0, -5567248.074173927, 0.0, 3000.4031658172607)
  | "H13" => some (-25.125, 0.25, 0.0, 75.125, 0.0, -0.25)
  | "H12" => some (-25.005, 0.01, 0.0, 75.005, 0.0, -0.01)
  | "H35" => some (-180.0, 0.01, 0.0, 90.0, 0.0, -0.01)
  | "H43" => some (-5567999.994203018, 1999.9999979177508, 0.0, 5567999.994203017, 0.0, -1999.9999979177508)
  | "H65" => some (-9000000.0, 25000.0, 0.0, 9000000.0, 0.0, -25000.0)
  | _ => none

/-- `Geocoder.DATA_KEY`: product code to the dataset variable name. -/
def DATA_KEY : String → Option String
  | "H10" => some "SC"
  | "H11" => some "rssc"
  | "H34" => some "SC"
  | "H35" => some "rssc"
  | "H12" => some "rssc"
  | "H13" => some "rssc"
  | "H43" => some "SC"
  | "H65" => some "swe"
  | _ => none

/-- `Geocoder.DATA_SHAPE`: product code to the expected (rows, cols). -/
def DATA_SHAPE : String → Option (Nat × Nat)
  | "H10" => some (916, 1902)
  | "H11" => some (201, 281)
  | "H34" => some (3712, 3712)
  | "H35" => some (8999, 35999)
  | "H12" => some (5001, 7001)
  | "H13" => some (201, 281)
  | "H43" => some (5568, 5568)
  | "H65" => some (720, 720)
  | _ => none

/-- A 2D integer grid (numpy array of the snow product samples). -/
abbrev Grid := List (List Int)

/-- numpy `.shape` of a 2D array: (rows, cols). -/
def shape (g : Grid) : Nat × Nat := (g.length, (g.headD []).length)

/-- `np.flip(data)` with no axis argument reverses along every axis; for a
2D array it reverses the row order and each row (a 180-degree rotation). -/
def npFlip {α : Type} (g : List (List α)) : List (List α) :=
  (g.map List.reverse).reverse

/-- The attribute state set up by `Geocoder.__init__`. -/
structure GeocoderState where
  product : String
  file : String
  outfile : String
  engine : String
  projection_key : String
  crs : String
  rotation : Bool
deriving DecidableEq

/-- `Geocoder.__init__(product, file, outfile, crs='4326')`: upper-case the
product code, pick the xarray engine, look the projection key up with the
fallback default `'WGS_84'`, and record whether the grid must be flipped. -/
def geocoderInit (product file outfile crs : String) : GeocoderState :=
  let p := pyUpper product
  { product := p
    file := file
    outfile := outfile
    engine := if p ∉ ["H10", "H34", "H43", "H65"] then "cfgrib" else "netcdf4"
    projection_key := (PROJECTION_MAP p).getD "WGS_84"
    crs := crs
    rotation := decide (p ∈ ["H10", "H34"]) }

/-- Errors the pipeline can raise: Python `KeyError` (dictionary lookup),
`AttributeError` (missing dataset attribute), and the `ValueError` that
`read_data` raises on a shape mismatch (the spec's `ShapeMismatchError`). -/
inductive GeoError where
  | keyError (key : String)
  | attributeError (nm : String)
  | valueError (expected got : Nat × Nat)
deriving DecidableEq

/-- An opened xarray dataset: named variables bound to 2D grids.  The
Python attribute access `d.data` is the lookup of the name `data`. -/
structure Dataset where
  vars : String → Option Grid

/-- `Geocoder.read_data()`: extract the `DATA_KEY` variable, reject a grid
whose shape differs from `DATA_SHAPE` with a `ValueError`, and flip the
grid when `rotation` is set. -/
def read_data (g : GeocoderState) (d : Dataset) : Except GeoError Grid :=
  match DATA_KEY g.product with
  | none => Except.error (GeoError.keyError g.product)
  | some key =>
    match d.vars key with
    | none => Except.error (GeoError.keyError key)
    | some data =>
      match DATA_SHAPE g.product with
      | none => Except.error (GeoError.keyError g.product)
      | some expected =>
        if shape data ≠ expected then
          Except.error (GeoError.valueError expected (shape data))
        else if g.rotation then Except.ok (npFlip data) else Except.ok data

/-- Metadata of a GTiff raster created through the GDAL driver. -/
structure RasterMeta where
  width : Nat
  height : Nat
  bands : Nat
  dtype : String
  geotransform : Option GeoTransform
  projection : Option String
  band1 : Option Grid
deriving DecidableEq

/-- Contents of a file on disk: a created raster, the warp's virtual
raster (recording its source), or the translated final GTiff. -/
inductive FileData where
  | rasterFile (r : RasterMeta)
  | vrtOf (src : String)
  | translatedFrom (src : String)
deriving DecidableEq

/-- The file system: paths with their contents. -/
abbrev FS := List (String × FileData)

/-- Create or overwrite the file at path `p`. -/
def setFile (fs : FS) (p : String) (d : FileData) : FS :=
  match fs with
  | [] => [(p, d)]
  | (q, e) :: rest => if q = p then (p, d) :: rest else (q, e) :: setFile rest p d

/-- Contents of the file at path `p`, when it exists. -/
def lookupFS (fs : FS) (p : String) : Option FileData :=
  match fs with
  | [] => none
  | (q, e) :: rest => if q = p then some e else lookupFS rest p

/-- The path-selection line of `Geocoder.write_data`:
`tempfile.mktemp(suffix='.tif') if self.projection_key == 'GEOS' and
self.crs == '4326' else self.outfile`; the fresh path `mktemp` would
produce is the parameter `tempTif`. -/
def temp_filename_for (g : GeocoderState) (tempTif : String) : String :=
  if g.projection_key = "GEOS" ∧ g.crs = "4326" then tempTif else g.outfile

/-- `Geocoder.write_data(data)`: `driver.Create` makes the file at the
selected path, then the geotransform (`TRANSFORM_DICT[self.product]`),
the projection (`PROJECTION_DICT[self.projection_key]`) and the band are
set in that order; a failing dictionary lookup raises after the file has
already been created. -/
def write_data (g : GeocoderState) (tempTif : String) (data : Grid) (fs : FS) :
    FS × Except GeoError String :=
  let temp_filename := temp_filename_for g tempTif
  let r0 : RasterMeta :=
    { width := (shape data).2, height := (shape data).1, bands := 1, dtype := "Int16"
      geotransform := none, projection := none, band1 := none }
  let fs1 := setFile fs temp_filename (FileData.rasterFile r0)
  match TRANSFORM_DICT g.product with
  | none => (fs1, Except.error (GeoError.keyError g.product))
  | some gt =>
    let r1 := { r0 with geotransform := some gt }
    let fs2 := setFile fs1 temp_filename (FileData.rasterFile r1)
    match PROJECTION_DICT g.projection_key with
    | none => (fs2, Except.error (GeoError.keyError g.projection_key))
    | some proj =>
      let r2 := { r1 with projection := some proj }
      let fs3 := setFile fs2 temp_filename (FileData.rasterFile r2)
      let r3 := { r2 with band1 := some data }
      let fs4 := setFile fs3 temp_filename (FileData.rasterFile r3)
      (fs4, Except.ok temp_filename)

/-- `Geocoder.project_to_wgs84(temp_filename)`:
`tempfile.NamedTemporaryFile(delete=False, suffix='.vrt')` creates the
`.vrt` file (and, with `delete=False`, never removes it), `gdal.Warp`
writes the virtual raster there, and `gdal.Translate` writes the final
GTiff at `self.outfile`.  No file is deleted. -/
def project_to_wgs84 (g : GeocoderState) (vrtPath : String) (temp_filename : String) (fs : FS) : FS :=
  let fs1 := setFile fs vrtPath (FileData.vrtOf temp_filename)
  setFile fs1 g.outfile (FileData.translatedFrom vrtPath)

/-- `Geocoder.project()`: the `self.read_data()` call is commented out in
the source; the grid is taken from the attribute `data` of the reopened
dataset, written with `write_data`, and reprojected exactly when
`self.projection_key in ['GEOS', 'EASE'] and self.crs == '4326'`. -/
def project (g : GeocoderState) (d : Dataset) (tempTif vrtPath : String) (fs : FS) :
    FS × Except GeoError Unit :=
  match d.vars "data" with
  | none => (fs, Except.error (GeoError.attributeError "data"))
  | some data =>
    match write_data g tempTif data fs with
    | (fs1, Except.error e) => (fs1, Except.error e)
    | (fs1, Except.ok temp_filename) =>
      if g.projection_key ∈ ["GEOS", "EASE"] ∧ g.crs = "4326" then
        (project_to_wgs84 g vrtPath temp_filename fs1, Except.ok ())
      else
        (fs1, Except.ok ())

/-- CLI `file_format_dict` of src/geocoder_app.py. -/
def file_format_dict : String → Option (List String)
  | "H10" => some ["hdf", "h5", "H5"]
  | "H34" => some ["hdf", "h5", "H5"]
  | "H13" => some ["grib2"]
  | "H11" => some ["grib2"]
  | "H12" => some ["grib2"]
  | "H35" => some ["grib2"]
  | _ => none

/-- CLI `validate_file`: the filesystem check `Path(file_path).is_file()`
is passed in as the boolean `isFile`; an unknown product defaults to the
empty extension list (the Python default `''` iterates no characters, so
`any` is false either way). -/
def validate_file (isFile : Bool) (file_path product : String) : Bool :=
  let valid_extensions := (file_format_dict (pyUpper product)).getD []
  isFile && valid_extensions.any (fun ext => file_path.endsWith ext)

/-- CLI `validate_product`. -/
def validate_product (product : String) : Bool :=
  decide (pyUpper product ∈ ["H10", "H11", "H34", "H13", "H12", "H35"])

/-- CLI `validate_crs`. -/
def validate_crs (crs : String) : Bool :=
  decide (crs ∈ ["4326", "GEOS"])

/-- Does any file in the file system stem from the warp's virtual raster?
The virtual raster is created exactly by `project_to_wgs84`, so this
observes whether the Reprojector ran. -/
def vrtCreated (fs : FS) : Bool :=
  fs.any (fun e => match e.2 with | FileData.vrtOf _ => true | _ => false)

/-- Geotransform of the raster stored at path `p`, when one is there. -/
def geoTransformAt (fs : FS) (p : String) : Option GeoTransform :=
  match lookupFS fs p with
  | some (FileData.rasterFile r) => r.geotransform
  | _ => none

/-- Projection string of the raster stored at path `p`. -/
def projectionAt (fs : FS) (p : String) : Option String :=
  match lookupFS fs p with
  | some (FileData.rasterFile r) => r.projection
  | _ => none

/-- Band contents of the raster stored at path `p`. -/
def bandAt (fs : FS) (p : String) : Option Grid :=
  match lookupFS fs p with
  | some (FileData.rasterFile r) => r.band1
  | _ => none

/-- Small concrete grid used in the concrete pipeline runs. -/
def sampleGrid : Grid := [[1, 2], [3, 4]]

/-- Concrete dataset for concrete runs: both the attribute `data` (what
`project` reads) and the variable `SC` (the registry key for H10, H34 and
H43) are bound to `sampleGrid`. -/
def demoDataset : Dataset :=
  ⟨fun k => if k = "data" ∨ k = "SC" then some sampleGrid else none⟩

/-! Helper lemmas shared by the claim theorems. -/

/-- Upper-casing a character twice is the same as doing it once. -/
theorem upperChar_idem (c : Char) : upperChar (upperChar c) = upperChar c := by
  unfold upperChar
  by_cases h : 97 ≤ c.toNat ∧ c.toNat ≤ 122
  · rw [if_pos h]
    have hval : (Char.ofNat (c.toNat - 32)).toNat = c.toNat - 32 := by
      have hv : (c.toNat - 32).isValidChar := Or.inl (by omega)
      rw [Char.ofNat, dif_pos hv]
      rfl
    rw [if_neg (by omega :
      ¬(97 ≤ (Char.ofNat (c.toNat - 32)).toNat ∧ (Char.ofNat (c.toNat - 32)).toNat ≤ 122))]
  · rw [if_neg h, if_neg h]

/-- Python `.upper()` is idempotent. -/
theorem pyUpper_idem (s : String) : pyUpper (pyUpper s) = pyUpper s := by
  unfold pyUpper
  cases s with
  | mk data =>
    apply congrArg String.mk
    rw [List.map_map]
    exact List.map_congr_left (fun c _ => upperChar_idem c)

/-- Looking up the path just written gives the data just written. -/
theorem lookupFS_setFile_self (fs : FS) (p : String) (d : FileData) :
    lookupFS (setFile fs p d) p = some d := by
  induction fs with
  | nil => simp [setFile, lookupFS]
  | cons hd tl ih =>
    obtain ⟨q, e⟩ := hd
    by_cases h : q = p
    · simp [setFile, lookupFS, h]
    · simp [setFile, lookupFS, h, ih]

/-- Writing one path leaves every other path unchanged. -/
theorem lookupFS_setFile_ne (fs : FS) (p q : String) (d : FileData) (h : p ≠ q) :
    lookupFS (setFile fs q d) p = lookupFS fs p := by
  induction fs with
  | nil => simp [setFile, lookupFS, Ne.symm h]
  | cons hd tl ih =>
    obtain ⟨r, e⟩ := hd
    by_cases hr : r = q
    · subst hr
      simp [setFile, lookupFS, Ne.symm h]
    · simp [setFile, lookupFS, hr, ih]

/-- Every value of `PROJECTION_MAP` is one of the three non-geographic keys. -/
theorem PROJECTION_MAP_range (p k : String) (h : PROJECTION_MAP p = some k) :
    k = "GEOS" ∨ k = "GEOS_MTG" ∨ k = "EASE" := by
  unfold PROJECTION_MAP at h
  split at h <;> simp_all

/-- The projection key selected by `__init__` always has a WKT entry. -/
theorem PROJECTION_DICT_total (p : String) :
    ∃ proj, PROJECTION_DICT ((PROJECTION_MAP p).getD "WGS_84") = some proj := by
  cases hm : PROJECTION_MAP p with
  | none => exact ⟨_, rfl⟩
  | some k =>
    rcases PROJECTION_MAP_range p k hm with h | h | h <;> subst h <;> exact ⟨_, rfl⟩

/-- Successful `write_data`: the raster is created at the selected path
with the registry geotransform, the projection-dictionary string and the
grid as band 1, every other path is untouched, and the selected path is
returned. -/
theorem write_data_eq_ok
    (g : GeocoderState) (tempTif : String) (data : Grid) (fs : FS)
    (gt : GeoTransform) (proj : String)
    (h1 : TRANSFORM_DICT g.product = some gt)
    (h2 : PROJECTION_DICT g.projection_key = some proj) :
    ∃ fs',
      write_data g tempTif data fs = (fs', Except.ok (temp_filename_for g tempTif))
      ∧ (∀ p, p ≠ tempTif → p ≠ g.outfile → lookupFS fs' p = lookupFS fs p)
      ∧ geoTransformAt fs' (temp_filename_for g tempTif) = some gt
      ∧ projectionAt fs' (temp_filename_for g tempTif) = some proj
      ∧ bandAt fs' (temp_filename_for g tempTif) = some data := by
  have htf : ∀ p : String, p ≠ tempTif → p ≠ g.outfile → p ≠ temp_filename_for g tempTif := by
    intro p hp1 hp2
    unfold temp_filename_for
    split <;> assumption
  refine ⟨(write_data g tempTif data fs).1, ?_, ?_, ?_, ?_, ?_⟩
  · simp only [write_data, h1, h2]
  · intro p hp1 hp2
    have h := htf p hp1 hp2
    simp only [write_data, h1, h2]
    rw [lookupFS_setFile_ne _ _ _ _ h, lookupFS_setFile_ne _ _ _ _ h,
        lookupFS_setFile_ne _ _ _ _ h, lookupFS_setFile_ne _ _ _ _ h]
  · unfold geoTransformAt
    simp only [write_data, h1, h2]
    rw [lookupFS_setFile_self]
  · unfold projectionAt
    simp only [write_data, h1, h2]
    rw [lookupFS_setFile_self]
  · unfold bandAt
    simp only [write_data, h1, h2]
    rw [lookupFS_setFile_self]

/-- Element view of `List.reverse` through `getD`. -/
theorem getD_reverse {α : Type} (l : List α) (i : Nat) (d : α) (h : i < l.length) :
    l.reverse.getD i d = l.getD (l.length - 1 - i) d := by
  rw [List.getD_eq_getElem?_getD, List.getD_eq_getElem?_getD, List.getElem?_reverse h]

/-- Row `i` of the flipped grid is the reverse of row `rows - 1 - i`. -/
theorem npFlip_getD_row {α : Type} (g : List (List α)) (i : Nat) (hi : i < g.length) :
    (npFlip g).getD i [] = (g.getD (g.length - 1 - i) []).reverse := by
  unfold npFlip
  rw [getD_reverse _ _ _ (by simpa using hi), List.length_map]
  have h2 : g.length - 1 - i < g.length := by omega
  simp [List.getD_eq_getElem?_getD, List.getElem?_eq_getElem h2]

/-! Claim theorems. -/

/-- Claim C1 (refuted by the code, a code bug): the claim says `project`
obtains its grid through the Loader contract (`read_data`): `variableKey`
extraction, shape validation against `expectedShape`, and the vertical
flip.  In the source the `self.read_data()` call is commented out:
`project` reads the attribute `data`, skips the shape check and the flip.
Concretely, for H10 with a 2-by-2 grid (wrong shape, and changed by a
flip), `project` completes and writes the raw grid while `read_data`
rejects the same dataset with the shape error. -/
theorem project_bypasses_loader :
    (project (geocoderInit "H10" "in.h5" "out.tif" "4326") demoDataset "tmp.tif" "tmp.vrt" []).2
        = Except.ok ()
    ∧ bandAt (project (geocoderInit "H10" "in.h5" "out.tif" "4326") demoDataset "tmp.tif" "tmp.vrt" []).1
        "tmp.tif" = some sampleGrid
    ∧ read_data (geocoderInit "H10" "in.h5" "out.tif" "4326") demoDataset
        = Except.error (GeoError.valueError (916, 1902) (2, 2))
    ∧ npFlip sampleGrid ≠ sampleGrid :=
  ⟨rfl, rfl, rfl, by decide⟩

/-- Claim C2 (refuted by the code, a code bug): the claim says an
unregistered product code fails with `UnknownProductError` at lookup and
is never silently given the geographic default.  In the source
`PROJECTION_MAP.get(self.product, 'WGS_84')` silently assigns the
geographic key `WGS_84`: constructing the pipeline with `"ZZ9"` succeeds
and yields exactly this state.  (The CLI's `validate_product` does reject
`"ZZ9"`, but the pipeline itself falls back.) -/
theorem unknown_product_silently_defaults (f o crs : String) :
    geocoderInit "ZZ9" f o crs =
      { product := "ZZ9", file := f, outfile := o, engine := "cfgrib"
        projection_key := "WGS_84", crs := crs, rotation := false }
    ∧ validate_product "ZZ9" = false :=
  ⟨rfl, rfl⟩

/-- Claim C3, counterexample: H43's source projection is the
non-geographic geostationary next-gen key `GEOS_MTG` and the caller
requests geographic output, yet the run completes without ever invoking
the Reprojector (no virtual raster is created). -/
theorem reprojector_skips_geos_mtg :
    (geocoderInit "H43" "in.nc" "out.tif" "4326").projection_key = "GEOS_MTG"
    ∧ vrtCreated (project (geocoderInit "H43" "in.nc" "out.tif" "4326") demoDataset "tmp.tif" "tmp.vrt" []).1
        = false
    ∧ (project (geocoderInit "H43" "in.nc" "out.tif" "4326") demoDataset "tmp.tif" "tmp.vrt" []).2
        = Except.ok () :=
  ⟨rfl, rfl, rfl⟩

/-- Claim C3 as amended: for a registered product, the Reprojector runs
(the warp's virtual raster appears at its fresh path) exactly when the
projection key is `GEOS` or `EASE` and the requested CRS is `4326` — not
for `GEOS_MTG`, not for geographic products, and not for native-output
requests. -/
theorem reprojection_iff_geos_or_ease
    (product f o crs tempTif vrtPath : String) (d : Dataset) (a : Grid)
    (gt : GeoTransform) (fs : FS)
    (hreg : TRANSFORM_DICT (pyUpper product) = some gt)
    (hdata : d.vars "data" = some a)
    (hfresh : lookupFS fs vrtPath = none)
    (hvo : vrtPath ≠ o) (hvt : vrtPath ≠ tempTif) :
    (lookupFS (project (geocoderInit product f o crs) d tempTif vrtPath fs).1 vrtPath).isSome = true
      ↔ ((geocoderInit product f o crs).projection_key ∈ ["GEOS", "EASE"] ∧ crs = "4326") := by
  obtain ⟨proj, hproj⟩ := PROJECTION_DICT_total (pyUpper product)
  have hreg' : TRANSFORM_DICT (geocoderInit product f o crs).product = some gt := hreg
  have hproj' : PROJECTION_DICT (geocoderInit product f o crs).projection_key = some proj := hproj
  obtain ⟨fs', hw, hlook, -, -, -⟩ :=
    write_data_eq_ok (geocoderInit product f o crs) tempTif a fs gt proj hreg' hproj'
  simp only [project, hdata, hw]
  by_cases hc : (geocoderInit product f o crs).projection_key ∈ ["GEOS", "EASE"]
      ∧ (geocoderInit product f o crs).crs = "4326"
  · rw [if_pos hc]
    have hout : (geocoderInit product f o crs).outfile = o := rfl
    simp only [project_to_wgs84, hout]
    rw [lookupFS_setFile_ne _ _ _ _ hvo, lookupFS_setFile_self]
    simp only [Option.isSome_some, true_iff]
    exact hc
  · rw [if_neg hc]
    rw [hlook vrtPath hvt hvo, hfresh]
    simp only [Option.isSome_none, Bool.false_eq_true, false_iff]
    exact hc

/-- Witness for the amended C3 theorem at product H10, where the
Reprojector does run. -/
theorem reprojection_iff_geos_or_ease_witness :
    (lookupFS (project (geocoderInit "H10" "in.h5" "out.tif" "4326") demoDataset "tmp.tif" "tmp.vrt" []).1
        "tmp.vrt").isSome = true
      ↔ ((geocoderInit "H10" "in.h5" "out.tif" "4326").projection_key ∈ ["GEOS", "EASE"]
          ∧ "4326" = "4326") :=
  reprojection_iff_geos_or_ease "H10" "in.h5" "out.tif" "4326" "tmp.tif" "tmp.vrt" demoDataset
    sampleGrid _ [] rfl rfl rfl (by decide) (by decide)

/-- Claim C4, counterexample: H65's source projection is the polar
equal-area key `EASE` (non-geographic) and the caller requests geographic
output, yet the Writer writes directly to the destination path — no
temporary file is used. -/
theorem writer_direct_for_ease :
    (geocoderInit "H65" "in.nc" "out.tif" "4326").projection_key = "EASE"
    ∧ (write_data (geocoderInit "H65" "in.nc" "out.tif" "4326") "tmp.tif" sampleGrid []).2
        = Except.ok "out.tif"
    ∧ lookupFS (write_data (geocoderInit "H65" "in.nc" "out.tif" "4326") "tmp.tif" sampleGrid []).1
        "tmp.tif" = none :=
  ⟨rfl, rfl, rfl⟩

/-- Claim C4 as amended: the Writer writes to the disposable temporary
path exactly when the projection key is classic geostationary (`GEOS`)
and the caller requested `4326`; in every other case — including `EASE`
and `GEOS_MTG` with geographic output — it writes directly to the
caller-supplied destination. -/
theorem writer_temp_iff_geos
    (g : GeocoderState) (tempTif : String) (data : Grid) (fs : FS)
    (gt : GeoTransform) (proj : String)
    (h1 : TRANSFORM_DICT g.product = some gt)
    (h2 : PROJECTION_DICT g.projection_key = some proj)
    (hne : tempTif ≠ g.outfile) :
    (write_data g tempTif data fs).2
        = Except.ok (if g.projection_key = "GEOS" ∧ g.crs = "4326" then tempTif else g.outfile)
    ∧ ((write_data g tempTif data fs).2 = Except.ok tempTif
        ↔ (g.projection_key = "GEOS" ∧ g.crs = "4326")) := by
  obtain ⟨fs', hw, -, -, -, -⟩ := write_data_eq_ok g tempTif data fs gt proj h1 h2
  rw [hw]
  unfold temp_filename_for
  constructor
  · rfl
  · by_cases hc : g.projection_key = "GEOS" ∧ g.crs = "4326"
    · rw [if_pos hc]
      exact iff_of_true rfl hc
    · rw [if_neg hc]
      simp only [Except.ok.injEq]
      exact iff_of_false (fun h => hne h.symm) hc

/-- Witness for the amended C4 theorem at product H10, where the
temporary path is selected. -/
theorem writer_temp_iff_geos_witness :
    (write_data (geocoderInit "H10" "in.h5" "out.tif" "4326") "tmp.tif" sampleGrid []).2
        = Except.ok "tmp.tif"
      ↔ ((geocoderInit "H10" "in.h5" "out.tif" "4326").projection_key = "GEOS"
          ∧ (geocoderInit "H10" "in.h5" "out.tif" "4326").crs = "4326") :=
  (writer_temp_iff_geos (geocoderInit "H10" "in.h5" "out.tif" "4326") "tmp.tif" sampleGrid []
    _ _ rfl rfl (by decide)).2

/-- Claim C5 (refuted by the code, a code bug): the claim says the
temporary intermediate files are removed before the invocation ends.  In
the source `tempfile.mktemp` hands out the pre-reprojection raster path
with no later removal, and the warp's virtual raster is opened with
`NamedTemporaryFile(delete=False)`; no cleanup call exists.  Concretely,
after a successful H10 geographic run both temporary files remain. -/
theorem temp_files_leak :
    (project (geocoderInit "H10" "in.h5" "out.tif" "4326") demoDataset "tmp.tif" "tmp.vrt" []).2
        = Except.ok ()
    ∧ (lookupFS (project (geocoderInit "H10" "in.h5" "out.tif" "4326") demoDataset "tmp.tif" "tmp.vrt" []).1
        "tmp.tif").isSome = true
    ∧ lookupFS (project (geocoderInit "H10" "in.h5" "out.tif" "4326") demoDataset "tmp.tif" "tmp.vrt" []).1
        "tmp.vrt" = some (FileData.vrtOf "tmp.tif") :=
  ⟨rfl, rfl, rfl⟩

/-- Claim C6 (refuted by the code, a code bug): the claim says a failing
run leaves no file at the final destination.  For the unregistered
product `"ZZ9"` the constructor silently succeeds, `write_data` selects
the destination path directly (the temporary-path condition is false for
the fallback key `WGS_84`), `driver.Create` makes the file there, and
only then does `TRANSFORM_DICT[self.product]` raise `KeyError` — leaving
a partial raster at the caller-supplied destination. -/
theorem failed_run_leaves_partial_output :
    (project (geocoderInit "ZZ9" "in.grib2" "out.tif" "4326") demoDataset "tmp.tif" "tmp.vrt" []).2
        = Except.error (GeoError.keyError "ZZ9")
    ∧ (lookupFS (project (geocoderInit "ZZ9" "in.grib2" "out.tif" "4326") demoDataset "tmp.tif" "tmp.vrt" []).1
        "out.tif").isSome = true :=
  ⟨rfl, rfl⟩

/-- Claim C7 (confirmed): for a registered product (its variable key and
expected shape present) and a dataset binding that key, `read_data`
returns the (flip-corrected) grid exactly when the grid's shape equals
the expected shape, and otherwise fails with the shape error carrying
the expected and actual shapes — the mismatch is never auto-corrected,
and `read_data` performs no write (its type touches no file system). -/
theorem read_data_shape_gate
    (g : GeocoderState) (d : Dataset) (key : String) (expected : Nat × Nat) (a : Grid)
    (hkey : DATA_KEY g.product = some key)
    (hshape : DATA_SHAPE g.product = some expected)
    (hvar : d.vars key = some a) :
    read_data g d =
      (if shape a = expected
        then Except.ok (if g.rotation then npFlip a else a)
        else Except.error (GeoError.valueError expected (shape a))) := by
  simp only [read_data, hkey, hvar, hshape]
  by_cases h : shape a = expected
  · rw [if_neg (not_not_intro h), if_pos h]
    cases g.rotation <;> simp
  · rw [if_pos h, if_neg h]

/-- Witness for C7: H10 with the 2-by-2 grid takes the mismatch branch. -/
theorem read_data_shape_gate_witness :
    read_data (geocoderInit "H10" "in.h5" "out.tif" "4326") demoDataset
      = Except.error (GeoError.valueError (916, 1902) (2, 2)) :=
  (read_data_shape_gate (geocoderInit "H10" "in.h5" "out.tif" "4326") demoDataset
    "SC" (916, 1902) sampleGrid rfl rfl rfl).trans rfl

/-- Claim C8 (confirmed): the orientation correction `np.flip` reverses
the grid along both axes — entry `(i, j)` of the flipped grid is entry
`(rows - 1 - i, len - 1 - j)` of the original — and flipping twice
restores the original grid bit-for-bit. -/
theorem npFlip_flip_both_axes
    {α : Type} (dflt : α) (g : List (List α)) (i j : Nat)
    (hi : i < g.length)
    (hj : j < (g.getD (g.length - 1 - i) []).length) :
    npFlip (npFlip g) = g
    ∧ ((npFlip g).getD i []).getD j dflt
        = (g.getD (g.length - 1 - i) []).getD
            ((g.getD (g.length - 1 - i) []).length - 1 - j) dflt := by
  constructor
  · unfold npFlip
    rw [List.map_reverse, List.reverse_reverse, List.map_map]
    have hid : List.reverse ∘ List.reverse = @id (List α) :=
      funext fun l => List.reverse_reverse l
    rw [hid, List.map_id]
  · rw [npFlip_getD_row g i hi, getD_reverse _ _ _ hj]

/-- Witness for C8 on the 2-by-2 grid at position (0, 1). -/
theorem npFlip_flip_both_axes_witness :
    npFlip (npFlip ([[1, 2], [3, 4]] : List (List Int))) = [[1, 2], [3, 4]]
    ∧ ((npFlip ([[1, 2], [3, 4]] : List (List Int))).getD 0 []).getD 1 0
        = (([[1, 2], [3, 4]] : List (List Int)).getD 1 []).getD 0 0 := by
  have h := npFlip_flip_both_axes (0 : Int) [[1, 2], [3, 4]] 0 1 (by decide) (by decide)
  simpa using h

/-- Claim C9 (confirmed): `write_data` stamps the created raster with the
registry geotransform of the product and the projection-definition string
of the product's projection key; and in the end-to-end H35 run (already
geographic) the raster at the destination carries exactly the registry's
H35 transform, with no reprojection invoked. -/
theorem write_sets_registry_metadata
    (g : GeocoderState) (tempTif : String) (data : Grid) (fs : FS)
    (gt : GeoTransform) (proj : String)
    (h1 : TRANSFORM_DICT g.product = some gt)
    (h2 : PROJECTION_DICT g.projection_key = some proj) :
    (geoTransformAt (write_data g tempTif data fs).1 (temp_filename_for g tempTif) = some gt
      ∧ projectionAt (write_data g tempTif data fs).1 (temp_filename_for g tempTif) = some proj
      ∧ bandAt (write_data g tempTif data fs).1 (temp_filename_for g tempTif) = some data)
    ∧ (geoTransformAt
          (project (geocoderInit "H35" "in.grib2" "out.tif" "4326") demoDataset "tmp.tif" "tmp.vrt" []).1
          "out.tif" = TRANSFORM_DICT "H35"
        ∧ vrtCreated
            (project (geocoderInit "H35" "in.grib2" "out.tif" "4326") demoDataset "tmp.tif" "tmp.vrt" []).1
          = false
        ∧ (project (geocoderInit "H35" "in.grib2" "out.tif" "4326") demoDataset "tmp.tif" "tmp.vrt" []).2
          = Except.ok ()) := by
  obtain ⟨fs', hw, -, hgt, hpj, hband⟩ := write_data_eq_ok g tempTif data fs gt proj h1 h2
  refine ⟨⟨?_, ?_, ?_⟩, rfl, rfl, rfl⟩
  · rw [hw]; exact hgt
  · rw [hw]; exact hpj
  · rw [hw]; exact hband

/-- Witness for C9 at product H34 with native (GEOS) output. -/
theorem write_sets_registry_metadata_witness :
    geoTransformAt
        (write_data (geocoderInit "H34" "in.h5" "out.tif" "GEOS") "tmp.tif" sampleGrid []).1
        (temp_filename_for (geocoderInit "H34" "in.h5" "out.tif" "GEOS") "tmp.tif")
      = TRANSFORM_DICT "H34" :=
  (write_sets_registry_metadata (geocoderInit "H34" "in.h5" "out.tif" "GEOS") "tmp.tif"
    sampleGrid [] _ _ rfl rfl).1.1

/-- Claim C10 (confirmed): product codes are case-insensitive at the
public interface.  `__init__` upper-cases the code before every use, so
the constructed state — and therefore every later registry lookup driven
by it — is identical for `p` and its upper-cased form; the CLI's product
and file validators upper-case likewise. -/
theorem product_code_case_insensitive
    (product f o crs fp : String) (isFile : Bool) :
    geocoderInit product f o crs = geocoderInit (pyUpper product) f o crs
    ∧ validate_product product = validate_product (pyUpper product)
    ∧ validate_file isFile fp product = validate_file isFile fp (pyUpper product) := by
  have h := pyUpper_idem product
  refine ⟨?_, ?_, ?_⟩
  · simp only [geocoderInit, h]
  · simp only [validate_product, h]
  · simp only [validate_file, h]

end HsafGeocoder
